import Mathlib

/-!
Verification development for the chunavmantra election-analytics backend.

The definitions below are a shallow embedding of the SQL/TypeScript logic of
the route handlers in `routes/booth-analysis.routes.ts`, `routes/booths.routes.ts`
and `middleware/errorHandler.ts`.  SQL `numeric` values are modelled as `ℚ`,
integer columns as `ℤ`, and nullable values (`LEFT JOIN` misses, `NULLIF`,
`MAX` over an empty set) as `Option`.
-/

namespace ChunavMantra

/-- JavaScript `Math.round`: round half toward positive infinity. -/
def jsRound (q : ℚ) : ℤ := ⌊q + 1/2⌋

/-- PostgreSQL `ROUND(x::numeric, 2)`: round half away from zero at two
decimal places. -/
def sqlRound2 (q : ℚ) : ℚ :=
  if 0 ≤ q then ((⌊q * 100 + 1/2⌋ : ℤ) : ℚ) / 100
  else -(((⌊-(q * 100) + 1/2⌋ : ℤ) : ℚ) / 100)

/-- One row of the `booth_turnout` table (election-scoped).  All columns are
modelled as present integers; the row as a whole is optional where the source
reaches it through a `LEFT JOIN`. -/
structure BoothTurnout where
  total_electors : ℤ
  total_votes_cast : ℤ
  male_voters : ℤ
  female_voters : ℤ
  other_voters : ℤ
deriving DecidableEq, Repr

/-- `COALESCE(bt.total_electors, 0)` over the optional joined row. -/
def coalesceElectors (bt : Option BoothTurnout) : ℤ :=
  match bt with
  | some r => r.total_electors
  | none => 0

/-- `COALESCE(bt.total_votes_cast, 0)` over the optional joined row. -/
def coalesceVotesCast (bt : Option BoothTurnout) : ℤ :=
  match bt with
  | some r => r.total_votes_cast
  | none => 0

/-- The guarded turnout expression used throughout `booth-analysis.routes.ts`:
`CASE WHEN bt.total_electors > 0 THEN ROUND((bt.total_votes_cast * 100.0 /
bt.total_electors)::numeric, 2) ELSE 0 END`.  A missing row makes the `WHEN`
comparison SQL-NULL (not true), so the `ELSE 0` branch fires. -/
def turnoutPctCase (bt : Option BoothTurnout) : ℚ :=
  match bt with
  | some r =>
    if r.total_electors > 0 then
      sqlRound2 ((r.total_votes_cast : ℚ) * 100 / (r.total_electors : ℚ))
    else 0
  | none => 0

/-- The guarded vote-share expression (`CASE WHEN total_votes_cast > 0 THEN
ROUND(votes * 100.0 / total_votes_cast, 2) ELSE 0 END`). -/
def voteShareCase (votes : ℤ) (totalVotesCast : ℤ) : ℚ :=
  if totalVotesCast > 0 then
    sqlRound2 ((votes : ℚ) * 100 / (totalVotesCast : ℚ))
  else 0

/-- Turnout as computed in `booths.routes.ts` (`GET /constituency/:acId` and
`GET /:id`): `ROUND(COALESCE(bt.total_votes_cast, 0) * 100.0 /
NULLIF(bt.total_electors, 0), 2)`.  A zero (or absent) electors column makes
the divisor SQL-NULL, so the whole expression is NULL. -/
def turnoutPctNullif (bt : Option BoothTurnout) : Option ℚ :=
  match bt with
  | none => none
  | some r =>
    if r.total_electors = 0 then none
    else some (sqlRound2 ((r.total_votes_cast : ℚ) * 100 / (r.total_electors : ℚ)))

/-- `SqlNum`: result of a SQL numeric expression that can also raise a
runtime error (division by zero). -/
inductive SqlNum where
  | null : SqlNum
  | val : ℚ → SqlNum
  | divByZero : SqlNum
deriving DecidableEq, Repr

/-- Male share as computed in the clusters CTE `booth_features`:
`ROUND((COALESCE(bt.male_voters, 0) * 100.0 / NULLIF(bt.total_electors, 1))::numeric, 2)`.
The `NULLIF` guards against the value 1, not 0: a present row with
`total_electors = 0` divides by zero and aborts the query. -/
def clustersMalePct (bt : Option BoothTurnout) : SqlNum :=
  match bt with
  | none => SqlNum.null
  | some r =>
    if r.total_electors = 1 then SqlNum.null
    else if r.total_electors = 0 then SqlNum.divByZero
    else SqlNum.val (sqlRound2 ((r.male_voters : ℚ) * 100 / (r.total_electors : ℚ)))

/-- The cluster CASE of `GET /clusters/:acId` (lines 265–272), branch for
branch. -/
def cluster_type (turnout : ℚ) (total_electors : ℤ) : String :=
  if 70 ≤ turnout ∧ 800 < total_electors then "High_Turnout_Large"
  else if 70 ≤ turnout ∧ total_electors ≤ 800 then "High_Turnout_Small"
  else if 50 ≤ turnout ∧ 800 < total_electors then "Medium_Turnout_Large"
  else if 50 ≤ turnout ∧ total_electors ≤ 800 then "Medium_Turnout_Small"
  else if turnout < 50 ∧ 800 < total_electors then "Low_Turnout_Large"
  else "Low_Turnout_Small"

/-- The band-product form of the cluster label used by the spec: a turnout
band crossed with a size band. -/
def clusterLabelSpec (turnout : ℚ) (total_electors : ℤ) : String :=
  (if 70 ≤ turnout then "High" else if 50 ≤ turnout then "Medium" else "Low")
    ++ "_Turnout_" ++ (if 800 < total_electors then "Large" else "Small")

/-- `winning_percentage` from the `booth_margins` CTE of
`GET /recommendations/:acId`: `CASE WHEN bp.total_votes_cast > 0 THEN
ROUND((bp.winning_votes * 100.0 / bp.total_votes_cast)::numeric, 2) ELSE 0 END`.
`winning_votes` is `MAX` over a possibly empty set, hence optional; when it is
NULL and votes were cast, the result is NULL. -/
def winningPercentage (totalVotesCast : ℤ) (winningVotes : Option ℤ) : Option ℚ :=
  if totalVotesCast > 0 then
    winningVotes.map (fun w => sqlRound2 ((w : ℚ) * 100 / (totalVotesCast : ℚ)))
  else some 0

/-- SQL three-valued `x < c` for a nullable `x`: true only when `x` is
non-null and below `c`. -/
def sqlLt (x : Option ℚ) (c : ℚ) : Bool :=
  match x with
  | some v => decide (v < c)
  | none => false

/-- SQL three-valued `x >= c` for a nullable `x`. -/
def sqlGe (x : Option ℚ) (c : ℚ) : Bool :=
  match x with
  | some v => decide (c ≤ v)
  | none => false

/-- The `recommendation_category` CASE of `GET /recommendations/:acId`
(lines 455–461), in the source's branch order: the `winning_percentage >= 55`
test comes second, before the turnout and electors tests. -/
def recommendation_category (winning_percentage : Option ℚ) (turnout : ℚ)
    (total_electors : ℤ) : String :=
  if sqlLt winning_percentage 55 then "Highly_Competitive"
  else if sqlGe winning_percentage 55 then "Stronghold"
  else if turnout < 50 then "Low_Turnout_Opportunity"
  else if total_electors > 1000 then "High_Density_Strategic"
  else "Standard"

/-- Modelled from the spec's words for comparison (refinement target of C1):
`competitivenessCategory` with the spec's rule order — competitive, then low
turnout, then high density, then stronghold, then standard — rendered with
the source's label strings. -/
def specCompetitivenessCategory (winningPct : ℚ) (turnout : ℚ)
    (electors : ℤ) : String :=
  if winningPct < 55 then "Highly_Competitive"
  else if turnout < 50 then "Low_Turnout_Opportunity"
  else if electors > 1000 then "High_Density_Strategic"
  else if 55 ≤ winningPct then "Stronghold"
  else "Standard"

/-- The rank CASE in the same query's ORDER BY (lines 464–469), kept for
reference: its priority order differs from the category CASE. -/
def recommendationOrderRank (winning_percentage : Option ℚ) (turnout : ℚ)
    (total_electors : ℤ) : ℤ :=
  if sqlLt winning_percentage 55 then 1
  else if turnout < 50 then 2
  else if total_electors > 1000 then 3
  else 4

/-! ### Constituency booth-analysis: per-booth rows and the summary query -/

/-- A booth row of a constituency after the `LEFT JOIN booth_turnout` used by
every per-booth query (`booth_stats`, `booth_features`, …): the booth id and
its optional turnout row for electionId 1. -/
structure BoothStat where
  booth_id : ℤ
  bt : Option BoothTurnout
deriving DecidableEq, Repr

/-- The per-booth `total_electors` column of `analysisQuery`
(`COALESCE(bt.total_electors, 0)`) summed over the booths of the
constituency, as a client would aggregate the returned rows. -/
def analysisElectorsSum (booths : List BoothStat) : ℤ :=
  (booths.map (fun b => coalesceElectors b.bt)).sum

/-- The per-booth `total_votes_cast` column of `analysisQuery` summed over
the booths of the constituency. -/
def analysisVotesSum (booths : List BoothStat) : ℤ :=
  (booths.map (fun b => coalesceVotesCast b.bt)).sum

/-- The `turnout_calc` CTE of `summaryQuery`: one `turnout_rate` row per
booth of the constituency. -/
def turnout_calc (booths : List BoothStat) : List ℚ :=
  booths.map (fun b =>
    match b.bt with
    | some r =>
      if r.total_electors > 0 then (r.total_votes_cast : ℚ) * 100 / (r.total_electors : ℚ)
      else 0
    | none => 0)

/-- The row set over which `summaryQuery` aggregates: `booths LEFT JOIN
booth_turnout` CROSS JOIN `turnout_calc` — every (booth, turnout_rate) pair.
A missing turnout row contributes SQL-NULL to the `SUM`s, which, like
`COALESCE(_, 0)`, contributes nothing. -/
def summaryJoinRows (booths : List BoothStat) : List (BoothStat × ℚ) :=
  booths.flatMap (fun b => (turnout_calc booths).map (fun t => (b, t)))

/-- `COALESCE(SUM(bt.total_electors), 0)` of `summaryQuery`, evaluated over
the cross-joined row set.  `none` when the row set is empty (no group is
produced, the handler then reads `rows[0] || ` an empty object). -/
def summaryTotalElectors (booths : List BoothStat) : Option ℤ :=
  match summaryJoinRows booths with
  | [] => none
  | rows => some ((rows.map (fun p => coalesceElectors p.1.bt)).sum)

/-- `COALESCE(SUM(bt.total_votes_cast), 0)` of `summaryQuery`, over the same
cross-joined row set. -/
def summaryTotalVotesCast (booths : List BoothStat) : Option ℤ :=
  match summaryJoinRows booths with
  | [] => none
  | rows => some ((rows.map (fun p => coalesceVotesCast p.1.bt)).sum)

/-! ### Booth comparison (`POST /compare`) -/

/-- The request body's `boothIds` field as the handler can observe it:
absent (or any falsy value), present but not an array, or an array of ids. -/
inductive BoothIdsField where
  | missing : BoothIdsField
  | notAnArray : BoothIdsField
  | arr : List ℤ → BoothIdsField
deriving DecidableEq, Repr

/-- Per-booth row of the comparison query result. -/
structure CompareRow where
  booth_id : ℤ
  total_electors : ℤ
  total_votes_cast : ℤ
  turnout_percentage : ℚ
deriving DecidableEq, Repr

/-- Summary block of the comparison response. -/
structure CompareSummary where
  total_booths : ℕ
  avg_turnout : ℚ
  total_electors : ℤ
  total_votes : ℤ
deriving DecidableEq, Repr

/-- Outcome of `POST /compare`: a 400 `AppError` from the validation guard,
or a success envelope. -/
inductive CompareOutcome where
  | invalidArgument : String → CompareOutcome
  | ok : List CompareRow → CompareSummary → CompareOutcome
deriving DecidableEq, Repr

/-- The `WHERE b.booth_id = ANY($1)` filter and per-row computation of the
comparison query (the winning-party subqueries are dropped: they do not
affect the outcome shape). -/
def compareQueryRows (db : List BoothStat) (ids : List ℤ) : List CompareRow :=
  (db.filter (fun b => ids.contains b.booth_id)).map (fun b =>
    { booth_id := b.booth_id
      total_electors := coalesceElectors b.bt
      total_votes_cast := coalesceVotesCast b.bt
      turnout_percentage := turnoutPctCase b.bt })

/-- The `POST /compare` handler: rejects a missing or non-array `boothIds`
with `AppError('Please provide booth IDs array', 400)`; otherwise runs the
query (an empty array included) and assembles the summary exactly as the
JavaScript reduce/length code does. -/
def compareBooths (body : BoothIdsField) (db : List BoothStat) : CompareOutcome :=
  match body with
  | BoothIdsField.missing => CompareOutcome.invalidArgument "Please provide booth IDs array"
  | BoothIdsField.notAnArray => CompareOutcome.invalidArgument "Please provide booth IDs array"
  | BoothIdsField.arr ids =>
    let rows := compareQueryRows db ids
    CompareOutcome.ok rows
      { total_booths := rows.length
        avg_turnout :=
          if rows.length > 0 then
            (rows.map (fun r => r.turnout_percentage)).sum / (rows.length : ℚ)
          else 0
        total_electors := (rows.map (fun r => r.total_electors)).sum
        total_votes := (rows.map (fun r => r.total_votes_cast)).sum }

/-! ### Booth details (`GET /booths/:id`) -/

/-- A row of the `booths` table. -/
structure BoothRecord where
  booth_id : ℤ
  booth_number : String
  booth_name : String
  ac_id : ℤ
deriving DecidableEq, Repr

/-- A `booth_results` row joined with its candidate and party
(booth-scoped, election 1). -/
structure ResultRow where
  booth_id : ℤ
  candidate_id : ℤ
  candidate_name : String
  party_name : String
  votes_secured : ℤ
deriving DecidableEq, Repr

/-- The slice of the database the booth-details endpoint touches. -/
structure Database where
  booths : List BoothRecord
  turnout : List (ℤ × BoothTurnout)
  results : List ResultRow
deriving Repr

/-- The `LEFT JOIN booth_turnout … AND bt.election_id = 1` lookup for one
booth. -/
def lookupTurnout (db : Database) (boothId : ℤ) : Option BoothTurnout :=
  (db.turnout.find? (fun p => p.1 = boothId)).map (fun p => p.2)

/-- Result rows of a booth, sorted by `votes_secured DESC` (insertion sort,
modelling the query's ORDER BY; ties keep arrival order, as the row order of
the underlying store does). -/
def sortedResults (db : Database) (boothId : ℤ) : List ResultRow :=
  (db.results.filter (fun r => r.booth_id = boothId)).mergeSort
    (fun a b => b.votes_secured ≤ a.votes_secured)

/-- Payload of a successful booth-details response (the fields the claims
touch; the constituency-comparison block is independent of the lookup). -/
structure BoothDetailsPayload where
  booth_id : ℤ
  booth_number : String
  booth_name : String
  total_electors : ℤ
  total_votes_cast : ℤ
  turnout_percentage : Option ℚ
  results : List ResultRow
  total_candidates : ℕ
  winning_votes : ℤ
deriving Repr

/-- Outcome of `GET /booths/:id`. -/
inductive BoothDetailsOutcome where
  | invalidId : BoothDetailsOutcome
  | notFound : BoothDetailsOutcome
  | ok : BoothDetailsPayload → BoothDetailsOutcome
deriving Repr

/-- The booth-details handler: validates the id (`isNaN(boothId) || boothId
<= 0` yields the 400 `AppError`), looks the booth up, answers
`AppError('Booth not found', 404)` on an empty result, and otherwise builds
the composite payload. -/
def getBoothDetails (boothId : ℤ) (db : Database) : BoothDetailsOutcome :=
  if boothId ≤ 0 then BoothDetailsOutcome.invalidId
  else
    match db.booths.find? (fun b => b.booth_id = boothId) with
    | none => BoothDetailsOutcome.notFound
    | some b =>
      let bt := lookupTurnout db boothId
      let results := sortedResults db boothId
      BoothDetailsOutcome.ok
        { booth_id := b.booth_id
          booth_number := b.booth_number
          booth_name := b.booth_name
          total_electors := coalesceElectors bt
          total_votes_cast := coalesceVotesCast bt
          turnout_percentage := turnoutPctNullif bt
          results := results
          total_candidates := results.length
          winning_votes := ((results.head?.map (fun r => r.votes_secured)).getD 0) }

/-! ### Error boundary (`/health` catch, route catches, central handler) -/

/-- What a thrown JavaScript error carries to a catch block. -/
structure ErrInfo where
  name : String
  message : String
  stack : String
deriving DecidableEq, Repr

/-- Body of the 500 response the `/health` (and `/test/:id`) catch block
sends directly, bypassing the central error handler. -/
structure HealthErrorBody where
  success : Bool
  error : String
  stack : String
deriving DecidableEq, Repr

/-- Outcome of `GET /booths/health`. -/
inductive HealthOutcome where
  | ok : String → String → HealthOutcome
  | err : HealthErrorBody → HealthOutcome
deriving DecidableEq, Repr

/-- The `/health` handler over the result of `pool.query('SELECT NOW() …')`:
on failure it responds with `error.message` and `error.stack` directly,
whatever the environment. -/
def healthHandler (dbResult : Except ErrInfo (String × String)) : HealthOutcome :=
  match dbResult with
  | Except.ok (time, version) => HealthOutcome.ok time version
  | Except.error e => HealthOutcome.err { success := false, error := e.message, stack := e.stack }

/-- The `AppError` a route catch block forwards to the central handler. -/
structure AppErrorT where
  name : String
  message : String
  statusCode : ℤ
deriving DecidableEq, Repr

/-- The booth-analysis catch block (`booth-analysis.routes.ts` line 172):
it concatenates the raw `error.message` into the `AppError` message. -/
def boothAnalysisCatch (e : ErrInfo) : AppErrorT :=
  { name := "Error", message := "Failed to fetch booth analysis: " ++ e.message, statusCode := 500 }

/-- The booth-details catch block (`booths.routes.ts` line 301), same
concatenation. -/
def boothDetailsCatch (e : ErrInfo) : AppErrorT :=
  { name := "Error", message := "Failed to fetch booth details: " ++ e.message, statusCode := 500 }

/-- Body of the JSON response produced by the central error handler. -/
structure ErrorResponse where
  status : ℤ
  success : Bool
  error : String
  stack : Option String
deriving DecidableEq, Repr

/-- The central `errorHandler` middleware: remaps a few error names, falls
back to the error's own message and status, and attaches the stack only when
`NODE_ENV === 'development'`. -/
def errorHandler (nodeEnv : String) (err : AppErrorT) (rawStack : String) : ErrorResponse :=
  let mapped : String × ℤ :=
    if err.name = "QueryResultError" then ("Database query error", 500)
    else if err.name = "ConnectionError" then ("Database connection error", 503)
    else if err.name = "TypeError" then ("Type error occurred", 400)
    else (err.message, err.statusCode)
  { status := mapped.2
    success := false
    error := if mapped.1 = "" then "Server Error" else mapped.1
    stack := if nodeEnv = "development" then some rawStack else none }

/-! ### Party dominance (`booth_winners` / `partyDominanceQuery`) -/

/-- `MAX(votes_secured)` over a booth's result rows (election-scoped),
SQL-NULL when the booth has no rows. -/
def boothMax (rows : List ResultRow) (b : ℤ) : Option ℤ :=
  ((rows.filter (fun r => r.booth_id = b)).map (fun r => r.votes_secured)).max?

/-- The winner rows: every result row whose `votes_secured` equals its
booth's maximum (the correlated subquery of `booth_winners` and
`partyDominanceQuery`). -/
def winnerRows (rows : List ResultRow) : List ResultRow :=
  rows.filter (fun r => boothMax rows r.booth_id = some r.votes_secured)

/-- The distinct booth ids a party's winner rows cover
(`COUNT(DISTINCT br.booth_id)`'s underlying set). -/
def wonBooths (rows : List ResultRow) (p : String) : List ℤ :=
  (((winnerRows rows).filter (fun r => r.party_name = p)).map (fun r => r.booth_id)).dedup

/-- `booths_won` of `partyDominanceQuery` for one party. -/
def boothsWon (rows : List ResultRow) (p : String) : ℕ :=
  (wonBooths rows p).length

/-- Number of distinct booths having at least one result row. -/
def boothsWithResults (rows : List ResultRow) : ℕ :=
  ((rows.map (fun r => r.booth_id)).dedup).length

/-! ### Heatmap (`GET /heatmap/:acId`) -/

/-- The `intensity` CASE of the heatmap query, applied to the effective
metric: `const (metric = turnout-by-default) = req.query`, then
`CASE $3 WHEN 'turnout' THEN <guarded turnout> WHEN 'voters' THEN
COALESCE(bt.total_electors, 0) ELSE COALESCE(bt.total_electors, 0) END`. -/
def heatmapIntensity (metricParam : Option String) (bt : Option BoothTurnout) : ℚ :=
  let metric := metricParam.getD "turnout"
  if metric = "turnout" then turnoutPctCase bt
  else if metric = "voters" then (coalesceElectors bt : ℚ)
  else (coalesceElectors bt : ℚ)

/-- The JavaScript normalization step over the fetched intensities:
`Math.max(...)` / `Math.min(...)` and the per-booth
`maxIntensity > minIntensity ? Math.round(((v - min) / (max - min)) * 100) : 50`. -/
def normalizedIntensities (l : List ℚ) : List ℤ :=
  match l with
  | [] => []
  | h :: t =>
    let mx := t.foldl max h
    let mn := t.foldl min h
    l.map (fun v => if mn < mx then jsRound ((v - mn) / (mx - mn) * 100) else 50)

/-- The heatmap pipeline for a constituency's booths: raw intensities from
the query, then the in-process normalization. -/
def heatmapPipeline (metricParam : Option String) (booths : List BoothStat) :
    List ℚ × List ℤ :=
  let intensities := booths.map (fun b => heatmapIntensity metricParam b.bt)
  (intensities, normalizedIntensities intensities)

/-- A one-booth result set in which one candidate of party A and one of
party B tie for the booth maximum. -/
def tieExample : List ResultRow :=
  [{ booth_id := 1, candidate_id := 1, candidate_name := "cand A", party_name := "A", votes_secured := 10 },
   { booth_id := 1, candidate_id := 2, candidate_name := "cand B", party_name := "B", votes_secured := 10 }]

/-- A two-booth constituency used to exercise the summary query: booth 1 has
100 electors / 50 votes, booth 2 has 200 electors / 100 votes. -/
def twoBoothAC : List BoothStat :=
  [{ booth_id := 1, bt := some { total_electors := 100, total_votes_cast := 50, male_voters := 0, female_voters := 0, other_voters := 0 } },
   { booth_id := 2, bt := some { total_electors := 200, total_votes_cast := 100, male_voters := 0, female_voters := 0, other_voters := 0 } }]

end ChunavMantra

namespace ChunavMantra

/-! ### Helper lemmas -/

theorem foldl_max_mem (t : List ℚ) : ∀ h : ℚ, t.foldl max h ∈ h :: t := by
  induction t with
  | nil => intro h; simp
  | cons a t ih =>
    intro h
    have hmem := ih (max h a)
    rw [List.foldl_cons]
    rcases List.mem_cons.mp hmem with hx | hx
    · rcases max_choice h a with hc | hc
      · rw [hx, hc]; exact List.mem_cons_self _ _
      · rw [hx, hc]; exact List.mem_cons_of_mem _ (List.mem_cons_self _ _)
    · exact List.mem_cons_of_mem _ (List.mem_cons_of_mem _ hx)

theorem le_foldl_max (t : List ℚ) : ∀ h x : ℚ, x ∈ h :: t → x ≤ t.foldl max h := by
  induction t with
  | nil => intro h x hx; rw [List.mem_singleton] at hx; simp [hx]
  | cons a t ih =>
    intro h x hx
    rw [List.foldl_cons]
    have hself : max h a ≤ t.foldl max (max h a) :=
      ih (max h a) (max h a) (List.mem_cons_self _ _)
    rcases List.mem_cons.mp hx with hx | hx
    · rw [hx]; exact le_trans (le_max_left h a) hself
    · rcases List.mem_cons.mp hx with hx2 | hx2
      · rw [hx2]; exact le_trans (le_max_right h a) hself
      · exact ih (max h a) x (List.mem_cons_of_mem _ hx2)

theorem foldl_max_eq (t : List ℚ) (h mx : ℚ) (hmem : mx ∈ h :: t)
    (hub : ∀ x ∈ h :: t, x ≤ mx) : t.foldl max h = mx :=
  le_antisymm (hub _ (foldl_max_mem t h)) (le_foldl_max t h mx hmem)

theorem foldl_min_mem (t : List ℚ) : ∀ h : ℚ, t.foldl min h ∈ h :: t := by
  induction t with
  | nil => intro h; simp
  | cons a t ih =>
    intro h
    have hmem := ih (min h a)
    rw [List.foldl_cons]
    rcases List.mem_cons.mp hmem with hx | hx
    · rcases min_choice h a with hc | hc
      · rw [hx, hc]; exact List.mem_cons_self _ _
      · rw [hx, hc]; exact List.mem_cons_of_mem _ (List.mem_cons_self _ _)
    · exact List.mem_cons_of_mem _ (List.mem_cons_of_mem _ hx)

theorem foldl_min_le (t : List ℚ) : ∀ h x : ℚ, x ∈ h :: t → t.foldl min h ≤ x := by
  induction t with
  | nil => intro h x hx; rw [List.mem_singleton] at hx; simp [hx]
  | cons a t ih =>
    intro h x hx
    rw [List.foldl_cons]
    have hself : t.foldl min (min h a) ≤ min h a :=
      ih (min h a) (min h a) (List.mem_cons_self _ _)
    rcases List.mem_cons.mp hx with hx | hx
    · rw [hx]; exact le_trans hself (min_le_left h a)
    · rcases List.mem_cons.mp hx with hx2 | hx2
      · rw [hx2]; exact le_trans hself (min_le_right h a)
      · exact ih (min h a) x (List.mem_cons_of_mem _ hx2)

theorem foldl_min_eq (t : List ℚ) (h mn : ℚ) (hmem : mn ∈ h :: t)
    (hlb : ∀ x ∈ h :: t, mn ≤ x) : t.foldl min h = mn :=
  le_antisymm (foldl_min_le t h mn hmem) (hlb _ (foldl_min_mem t h))

/-! ### Claim theorems -/

/-- C1 counterexample: the claim's rule order fails on the source.  At
winning percentage 60, turnout 40 and 500 electors the source's CASE yields
Stronghold (its second branch), while the claimed priority order — turnout
below 50 checked before the Stronghold rule — yields Low_Turnout_Opportunity. -/
theorem C1_counterexample :
    recommendation_category (some 60) 40 500 = "Stronghold"
      ∧ specCompetitivenessCategory 60 40 500 = "Low_Turnout_Opportunity"
      ∧ ("Stronghold" : String) ≠ "Low_Turnout_Opportunity" := by
  refine ⟨?_, ?_, by decide⟩
  · norm_num [recommendation_category, sqlLt, sqlGe]
  · norm_num [specCompetitivenessCategory]

/-- C1 (amended): the recommendation CASE checks winning_percentage < 55 and
then winning_percentage >= 55 first, so every booth with a non-NULL winning
percentage is Highly_Competitive or Stronghold; the turnout, electors and
Standard branches are reached only when winning_percentage is SQL-NULL (votes
cast but no result rows).  The spec's example (52, 80, 500) does map to the
competitive category. -/
theorem C1_category_rules (w t : ℚ) (e : ℤ) :
    recommendation_category (some w) t e
        = (if w < 55 then "Highly_Competitive" else "Stronghold")
      ∧ recommendation_category none t e
          = (if t < 50 then "Low_Turnout_Opportunity"
             else if e > 1000 then "High_Density_Strategic" else "Standard")
      ∧ recommendation_category (some 52) 80 500 = "Highly_Competitive" := by
  refine ⟨?_, ?_, by norm_num [recommendation_category, sqlLt, sqlGe]⟩
  · by_cases hw : w < 55
    · simp [recommendation_category, sqlLt, sqlGe, hw]
    · simp [recommendation_category, sqlLt, sqlGe, hw, le_of_not_lt hw]
  · simp [recommendation_category, sqlLt, sqlGe]

/-- C2: the code violates the round-trip claim.  The summary query CROSS
JOINs the per-booth turnout_calc CTE, so its SUMs count every booth once per
booth of the constituency: for a two-booth constituency with 100+200 electors
and 50+100 votes cast, the per-booth sums are 300 and 150 while the summary
reports 600 and 300. -/
theorem C2_summary_mismatch :
    analysisElectorsSum twoBoothAC = 300
      ∧ summaryTotalElectors twoBoothAC = some 600
      ∧ analysisVotesSum twoBoothAC = 150
      ∧ summaryTotalVotesCast twoBoothAC = some 300
      ∧ summaryTotalElectors twoBoothAC ≠ some (analysisElectorsSum twoBoothAC) := by
  refine ⟨?_, ?_, ?_, ?_, ?_⟩
  · norm_num [analysisElectorsSum, twoBoothAC, coalesceElectors]
  · norm_num [summaryTotalElectors, summaryJoinRows, turnout_calc, twoBoothAC, coalesceElectors,
      List.flatMap]
  · norm_num [analysisVotesSum, twoBoothAC, coalesceVotesCast]
  · norm_num [summaryTotalVotesCast, summaryJoinRows, turnout_calc, twoBoothAC, coalesceVotesCast,
      List.flatMap]
  · norm_num [summaryTotalElectors, summaryJoinRows, turnout_calc, twoBoothAC, coalesceElectors,
      analysisElectorsSum, List.flatMap]

/-- C3 counterexample: compareBooths with the empty array is a success
response (empty booth list, zero summary), not an InvalidArgument failure —
the guard only rejects a missing or non-array boothIds field. -/
theorem C3_empty_array_succeeds :
    compareBooths (BoothIdsField.arr []) twoBoothAC
      = CompareOutcome.ok [] { total_booths := 0, avg_turnout := 0, total_electors := 0, total_votes := 0 } := by
  norm_num [compareBooths, compareQueryRows, twoBoothAC, List.filter]

/-- C3 (amended): the 400 InvalidArgument guard of POST /compare fires
exactly when boothIds is missing (falsy) or not an array; every array,
the empty one included, proceeds to a success response. -/
theorem C3_guard_characterization (body : BoothIdsField) (db : List BoothStat) :
    (∃ m, compareBooths body db = CompareOutcome.invalidArgument m)
      ↔ body = BoothIdsField.missing ∨ body = BoothIdsField.notAnArray := by
  cases body with
  | missing => simp [compareBooths]
  | notAnArray => simp [compareBooths]
  | arr ids => simp [compareBooths]

/-- C4 counterexample: with a turnout row of 0 electors the booths-list
endpoint's NULLIF-based turnout is SQL-NULL rather than 0, and the clusters
endpoint's male-percentage expression — whose NULLIF guards against the
value 1, not 0 — performs a division by zero. -/
theorem C4_zero_electors_not_zero :
    turnoutPctNullif (some ⟨0, 0, 0, 0, 0⟩) = none
      ∧ turnoutPctNullif (some ⟨0, 0, 0, 0, 0⟩) ≠ some 0
      ∧ clustersMalePct (some ⟨0, 0, 5, 5, 0⟩) = SqlNum.divByZero := by decide

/-- C4 (amended): the CASE-guarded turnout and vote-share expressions of the
booth-analysis routes do return 0 when electors (resp. votes cast) are 0 and
when the turnout row is absent; but the NULLIF(total_electors, 0) variants of
the booths routes return SQL-NULL instead of 0, and the clusters query's
gender percentages divide by NULLIF(total_electors, 1), an actual division
by zero at 0 electors. -/
theorem C4_division_guards (votes : ℤ) (bt : BoothTurnout) (h : bt.total_electors = 0) :
    voteShareCase votes 0 = 0
      ∧ turnoutPctCase (some bt) = 0
      ∧ turnoutPctCase none = 0
      ∧ turnoutPctNullif (some bt) = none
      ∧ clustersMalePct (some bt) = SqlNum.divByZero := by
  refine ⟨by simp [voteShareCase], ?_, by simp [turnoutPctCase], ?_, ?_⟩
  · simp [turnoutPctCase, h]
  · simp [turnoutPctNullif, h]
  · simp [clustersMalePct, h]

/-- C4 witness: the amended statement at votes 7 and a turnout row with 0
electors. -/
theorem C4_division_guards_witness :
    (⟨0, 3, 2, 1, 0⟩ : BoothTurnout).total_electors = 0
      ∧ (voteShareCase 7 0 = 0
          ∧ turnoutPctCase (some ⟨0, 3, 2, 1, 0⟩) = 0
          ∧ turnoutPctCase none = 0
          ∧ turnoutPctNullif (some ⟨0, 3, 2, 1, 0⟩) = none
          ∧ clustersMalePct (some ⟨0, 3, 2, 1, 0⟩) = SqlNum.divByZero) :=
  ⟨rfl, C4_division_guards 7 ⟨0, 3, 2, 1, 0⟩ rfl⟩

/-- C5 (confirmed): for a sequence with minimum mn and maximum mx, the
heatmap normalization maps every value v to round((v − mn)/(mx − mn) × 100)
when mx > mn and to 50 when the range is degenerate; in particular
[5, 5, 5] normalizes to [50, 50, 50] and [0, 50, 100] to [0, 50, 100]. -/
theorem C5_heatmap_normalize (l : List ℚ) (mn mx : ℚ)
    (hmn : mn ∈ l ∧ ∀ x ∈ l, mn ≤ x) (hmx : mx ∈ l ∧ ∀ x ∈ l, x ≤ mx) :
    normalizedIntensities l
        = l.map (fun v => if mn < mx then jsRound ((v - mn) / (mx - mn) * 100) else 50)
      ∧ normalizedIntensities [5, 5, 5] = [50, 50, 50]
      ∧ normalizedIntensities [0, 50, 100] = [0, 50, 100] := by
  refine ⟨?_, ?_, ?_⟩
  · cases l with
    | nil => exact absurd hmn.1 (List.not_mem_nil mn)
    | cons h t =>
      rw [show normalizedIntensities (h :: t)
            = (h :: t).map (fun v =>
                if t.foldl min h < t.foldl max h then
                  jsRound ((v - t.foldl min h) / (t.foldl max h - t.foldl min h) * 100)
                else 50) from rfl]
      rw [foldl_max_eq t h mx hmx.1 hmx.2, foldl_min_eq t h mn hmn.1 hmn.2]
  · norm_num [normalizedIntensities, jsRound, List.foldl, max_def, min_def]
  · norm_num [normalizedIntensities, jsRound, List.foldl, max_def, min_def]

/-- C5 witness: the normalization theorem applied to [0, 50, 100] with
minimum 0 and maximum 100. -/
theorem C5_heatmap_normalize_witness :
    (((0 : ℚ) ∈ [0, 50, 100] ∧ ∀ x ∈ ([0, 50, 100] : List ℚ), 0 ≤ x)
        ∧ ((100 : ℚ) ∈ [0, 50, 100] ∧ ∀ x ∈ ([0, 50, 100] : List ℚ), x ≤ 100))
      ∧ (normalizedIntensities [0, 50, 100]
            = ([0, 50, 100] : List ℚ).map
                (fun v => if (0 : ℚ) < 100 then jsRound ((v - 0) / (100 - 0) * 100) else 50)
          ∧ normalizedIntensities [5, 5, 5] = [50, 50, 50]
          ∧ normalizedIntensities [0, 50, 100] = [0, 50, 100]) :=
  ⟨⟨⟨by norm_num, by norm_num⟩, ⟨by norm_num, by norm_num⟩⟩,
    C5_heatmap_normalize [0, 50, 100] 0 100 ⟨by norm_num, by norm_num⟩ ⟨by norm_num, by norm_num⟩⟩

/-- C6 (confirmed): for a positive booth id that matches no booth row,
getBoothDetails answers the 404 NotFound outcome, which carries no data. -/
theorem C6_not_found (boothId : ℤ) (db : Database) (hpos : 0 < boothId)
    (habs : ∀ b ∈ db.booths, b.booth_id ≠ boothId) :
    getBoothDetails boothId db = BoothDetailsOutcome.notFound := by
  unfold getBoothDetails
  rw [if_neg (by omega)]
  have hfind : db.booths.find? (fun b => b.booth_id = boothId) = none := by
    rw [List.find?_eq_none]
    intro b hb
    simpa using habs b hb
  rw [hfind]

/-- C6 witness: booth id 2 against a database whose only booth has id 1. -/
theorem C6_not_found_witness :
    (0 : ℤ) < 2
      ∧ (∀ b ∈ (Database.mk [⟨1, "1", "Booth One", 10⟩] [] []).booths, b.booth_id ≠ 2)
      ∧ getBoothDetails 2 (Database.mk [⟨1, "1", "Booth One", 10⟩] [] [])
          = BoothDetailsOutcome.notFound :=
  ⟨by decide, by decide, C6_not_found 2 _ (by decide) (by decide)⟩

/-- C7 counterexample: on a data-access failure the /health endpoint's
catch block returns the raw driver message and the stack trace directly
(in every environment), and the booth-analysis catch block concatenates
the raw driver message into the error string the central handler returns
even in production. -/
theorem C7_diagnostic_leak :
    healthHandler (Except.error ⟨"Error", "connection refused 127.0.0.1:5432", "at Pool.connect pg pool.js 45 11"⟩)
        = HealthOutcome.err ⟨false, "connection refused 127.0.0.1:5432", "at Pool.connect pg pool.js 45 11"⟩
      ∧ (errorHandler "production"
            (boothAnalysisCatch ⟨"Error", "relation booths does not exist", "trace"⟩) "trace").error
          = "Failed to fetch booth analysis: relation booths does not exist" := by
  exact ⟨rfl, by decide⟩

/-- C7 (amended): responses routed through the central errorHandler carry a
stack trace only when NODE_ENV is development; but the booth-analysis catch
embeds the raw error message in the returned error string in every
environment, and the /health (and /test) endpoints return the raw message
and stack unconditionally, bypassing the handler. -/
theorem C7_error_boundary (env : String) (err : AppErrorT) (stk : String) (e : ErrInfo)
    (hprod : env ≠ "development") :
    (errorHandler env err stk).stack = none
      ∧ (errorHandler "development" err stk).stack = some stk
      ∧ (errorHandler env (boothAnalysisCatch e) e.stack).error
          = "Failed to fetch booth analysis: " ++ e.message
      ∧ healthHandler (Except.error e) = HealthOutcome.err ⟨false, e.message, e.stack⟩ := by
  refine ⟨by simp [errorHandler, hprod], by simp [errorHandler], ?_, rfl⟩
  have hne : ("Failed to fetch booth analysis: " ++ e.message) ≠ "" := by
    intro hc
    have hlen := congrArg String.length hc
    rw [String.length_append] at hlen
    rw [show ("Failed to fetch booth analysis: ").length = 32 from rfl,
      show ("" : String).length = 0 from rfl] at hlen
    omega
  have h1 : ("Error" : String) ≠ "QueryResultError" := by decide
  have h2 : ("Error" : String) ≠ "ConnectionError" := by decide
  have h3 : ("Error" : String) ≠ "TypeError" := by decide
  simp [errorHandler, boothAnalysisCatch, h1, h2, h3, hne]

/-- C7 witness: the error-boundary theorem in the production environment at
a concrete error. -/
theorem C7_error_boundary_witness :
    ("production" : String) ≠ "development"
      ∧ ((errorHandler "production" ⟨"Error", "boom", 500⟩ "trace").stack = none
          ∧ (errorHandler "development" ⟨"Error", "boom", 500⟩ "trace").stack = some "trace"
          ∧ (errorHandler "production"
                (boothAnalysisCatch ⟨"Error", "raw driver message", "trace2"⟩)
                (ErrInfo.mk "Error" "raw driver message" "trace2").stack).error
              = "Failed to fetch booth analysis: " ++ "raw driver message"
          ∧ healthHandler (Except.error ⟨"Error", "raw driver message", "trace2"⟩)
              = HealthOutcome.err ⟨false, "raw driver message", "trace2"⟩) :=
  ⟨by decide,
    C7_error_boundary "production" ⟨"Error", "boom", 500⟩ "trace"
      ⟨"Error", "raw driver message", "trace2"⟩ (by decide)⟩

/-- C8 (confirmed): the cluster CASE is exactly the six-way product of the
turnout band (at least 70 high, at least 50 medium, otherwise low) with the
size band (more than 800 electors large, otherwise small); turnout 75 with
900 electors is High_Turnout_Large and turnout 40 with 300 electors is
Low_Turnout_Small. -/
theorem C8_cluster_label (t : ℚ) (e : ℤ) :
    cluster_type t e = clusterLabelSpec t e
      ∧ cluster_type 75 900 = "High_Turnout_Large"
      ∧ cluster_type 40 300 = "Low_Turnout_Small" := by
  refine ⟨?_, by norm_num [cluster_type], by norm_num [cluster_type]⟩
  unfold cluster_type clusterLabelSpec
  by_cases h70 : 70 ≤ t
  · have h50 : (50 : ℚ) ≤ t := by linarith
    by_cases he : 800 < e
    · rw [if_pos ⟨h70, he⟩, if_pos h70, if_pos he]; decide
    · have he2 : e ≤ 800 := le_of_not_lt he
      rw [if_neg (fun hc => he hc.2), if_pos ⟨h70, he2⟩, if_pos h70, if_neg he]; decide
  · have h70b : ¬ (70 ≤ t) := h70
    by_cases h50 : 50 ≤ t
    · by_cases he : 800 < e
      · rw [if_neg (fun hc => h70b hc.1), if_neg (fun hc => h70b hc.1),
          if_pos ⟨h50, he⟩, if_neg h70b, if_pos h50, if_pos he]; decide
      · have he2 : e ≤ 800 := le_of_not_lt he
        rw [if_neg (fun hc => h70b hc.1), if_neg (fun hc => h70b hc.1),
          if_neg (fun hc => he hc.2), if_pos ⟨h50, he2⟩, if_neg h70b, if_pos h50, if_neg he]; decide
    · have hlt : t < 50 := lt_of_not_le h50
      by_cases he : 800 < e
      · rw [if_neg (fun hc => h70b hc.1), if_neg (fun hc => h70b hc.1),
          if_neg (fun hc => h50 hc.1), if_neg (fun hc => h50 hc.1),
          if_pos ⟨hlt, he⟩, if_neg h70b, if_neg h50, if_pos he]; decide
      · have he2 : e ≤ 800 := le_of_not_lt he
        rw [if_neg (fun hc => h70b hc.1), if_neg (fun hc => h70b hc.1),
          if_neg (fun hc => h50 hc.1), if_neg (fun hc => h50 hc.1),
          if_neg (fun hc => he hc.2), if_neg h70b, if_neg h50, if_neg he]; decide

/-- C9 (confirmed): a booth is counted (once, via COUNT(DISTINCT booth_id))
in a party's booths_won exactly when some candidate row of that party attains
the booth's maximum votes_secured; on the one-booth two-party tie example
both parties count the booth, so the sum of booths_won (2) exceeds the
number of booths with results (1). -/
theorem C9_party_dominance (rows : List ResultRow) (p : String) (b : ℤ) :
    (b ∈ wonBooths rows p
        ↔ ∃ r ∈ rows, r.booth_id = b ∧ r.party_name = p
            ∧ boothMax rows b = some r.votes_secured)
      ∧ (wonBooths rows p).Nodup
      ∧ boothsWon tieExample "A" = 1 ∧ boothsWon tieExample "B" = 1
      ∧ boothsWithResults tieExample = 1
      ∧ boothsWithResults tieExample < boothsWon tieExample "A" + boothsWon tieExample "B" := by
  refine ⟨?_, List.nodup_dedup _, by decide, by decide, by decide, by decide⟩
  unfold wonBooths winnerRows
  simp only [List.mem_dedup, List.mem_map, List.mem_filter, decide_eq_true_eq]
  constructor
  · rintro ⟨r, ⟨⟨hr, hmax⟩, hp⟩, hb⟩
    exact ⟨r, hr, hb, hp, hb ▸ hmax⟩
  · rintro ⟨r, hr, hb, hp, hmax⟩
    exact ⟨r, ⟨⟨hr, hb ▸ hmax⟩, hp⟩, hb⟩

/-- C10 counterexample: when the metric parameter is absent it defaults to
turnout, so a booth with 200 electors and 100 votes cast gets intensity 50
(the turnout percentage), not its 200 electors as the claim requires. -/
theorem C10_absent_metric :
    heatmapIntensity none (some ⟨200, 100, 0, 0, 0⟩) = 50
      ∧ heatmapIntensity (some "voters") (some ⟨200, 100, 0, 0, 0⟩) = 200
      ∧ (50 : ℚ) ≠ 200 := by
  refine ⟨?_, ?_, by norm_num⟩
  · norm_num [heatmapIntensity, turnoutPctCase, sqlRound2]
  · unfold heatmapIntensity
    simp only [Option.getD_some]
    rw [if_neg (by decide)]
    norm_num [coalesceElectors]

/-- C10 (amended): for every provided metric string other than turnout —
voters and any unrecognized string alike — the intensity is the coalesced
total_electors, and the whole heatmap pipeline (raw and normalized
intensities) coincides with the one for metric voters; an absent metric
defaults to turnout instead. -/
theorem C10_provided_metric (m : String) (hm : m ≠ "turnout") (booths : List BoothStat)
    (bt : Option BoothTurnout) :
    heatmapIntensity (some m) bt = (coalesceElectors bt : ℚ)
      ∧ heatmapPipeline (some m) booths = heatmapPipeline (some "voters") booths := by
  have hint : ∀ x : Option BoothTurnout, heatmapIntensity (some m) x = (coalesceElectors x : ℚ) := by
    intro x
    unfold heatmapIntensity
    simp only [Option.getD_some]
    rw [if_neg hm]
    split <;> rfl
  have hvoters : ∀ x : Option BoothTurnout,
      heatmapIntensity (some "voters") x = (coalesceElectors x : ℚ) := by
    intro x
    unfold heatmapIntensity
    simp only [Option.getD_some]
    rw [if_neg (by decide)]
    split <;> rfl
  refine ⟨hint bt, ?_⟩
  unfold heatmapPipeline
  simp only [hint, hvoters]

/-- C10 witness: the provided-metric theorem at the unrecognized metric
string anything, over the two-booth constituency. -/
theorem C10_provided_metric_witness :
    ("anything" : String) ≠ "turnout"
      ∧ (heatmapIntensity (some "anything") (some ⟨200, 100, 0, 0, 0⟩)
            = (coalesceElectors (some ⟨200, 100, 0, 0, 0⟩) : ℚ)
          ∧ heatmapPipeline (some "anything") twoBoothAC
              = heatmapPipeline (some "voters") twoBoothAC) :=
  ⟨by decide, C10_provided_metric "anything" (by decide) twoBoothAC (some ⟨200, 100, 0, 0, 0⟩)⟩

end ChunavMantra
